import Mathlib

/-!
Verification of the Manticore worker core (`manticore/core/worker.py`).

We give a shallow embedding of `Worker.run` — the main symbolic-execution
worker loop — together with the log-capture helpers
(`LogCaptureWorker.log_callback`, `LogCaptureWorker.dump_logs`), the state
snapshot renderer (`render_state_descriptors`) and the TCP server bindings,
and prove the specified properties about them.

The worker loop interacts with a Coordinator (the `Manticore` object `m`)
through calls that live outside this file's source (`m._get_state`,
`m._fork`, `m._save`, `m._revive_state`, `m._terminate_state`,
`m._kill_state`, `m._publish`).  Each loop iteration is therefore driven by
an `Env` record that supplies the outcome of every external call the
iteration can make (what `_get_state` returned or raised, how the drive
phase ended, whether each Coordinator call raised), and the iteration
function is a direct transcription of the Python control flow: the inner
`try` with its `Concretize`/`TerminateState` handlers nested inside the
outer `try` with its `(Exception, AssertionError)` handler.

Registry list effects of the Coordinator operations are modelled from the
spec's §4.2 contracts (`getState` moves ready→busy, `revive` busy→ready,
`terminateState` busy→terminated, `killState` busy→killed, `save` leaves
membership unchanged), since the Coordinator's own code is not part of this
source file.
-/

/-- Registry of exploration-state ids partitioned into the four lists
(ready, busy, terminated, killed). -/
structure Registry where
  ready : List Nat
  busy : List Nat
  terminated : List Nat
  killed : List Nat
deriving DecidableEq, Repr

namespace Registry

/-- Modelled from the spec: `getState` "atomically moves one id from
`ready` to `busy`" — the registry effect of a successful
`m._get_state(wait=True)` returning the state with id `sid`. -/
def getStateEffect (r : Registry) (sid : Nat) : Registry :=
  { r with ready := r.ready.erase sid, busy := r.busy ++ [sid] }

/-- Modelled from the spec: `revive(state_id)` "moves an id from `busy`
back to `ready`". -/
def reviveEffect (r : Registry) (sid : Nat) : Registry :=
  { r with busy := r.busy.erase sid, ready := r.ready ++ [sid] }

/-- Modelled from the spec: `terminateState(state_id)` moves an id from
`busy` to `terminated`. -/
def terminateStateEffect (r : Registry) (sid : Nat) : Registry :=
  { r with busy := r.busy.erase sid, terminated := r.terminated ++ [sid] }

/-- Modelled from the spec: `killState(state_id)` moves an id from `busy`
to `killed`. -/
def killStateEffect (r : Registry) (sid : Nat) : Registry :=
  { r with busy := r.busy.erase sid, killed := r.killed ++ [sid] }

/-- Modelled from the spec: `fork` "assigns each a fresh id, inserts each
into `ready`" and the parent state is consumed; `children` are the
successor ids the Coordinator inserted into `ready` (a successor returned
by the keep-going optimization is not placed in any list). -/
def forkEffect (r : Registry) (sid : Nat) (children : List Nat) : Registry :=
  { r with busy := r.busy.erase sid, ready := r.ready ++ children }

end Registry

/-- Events published through `m._publish` by the worker loop. -/
inductive Event where
  | will_start_worker (wid : Nat)
  | did_terminate_worker (wid : Nat)
  | will_terminate_state (sid : Nat) (reason : String)
  | did_terminate_state (sid : Nat) (reason : String)
  | will_kill_state (sid : Nat) (err : String)
  | did_kill_state (sid : Nat) (err : String)
deriving DecidableEq, Repr

/-- Observable actions of one worker run: published events and Coordinator
calls, in program order. -/
inductive WorkerAction where
  | publish (e : Event)
  | getStateCall
  | save (sid : Nat)
  | setTerminatedBy (sid : Nat) (reason : String)
  | callFork (sid : Nat)
  | killState (sid : Nat)
  | terminateState (sid : Nat)
  | revive (sid : Nat)
deriving DecidableEq, Repr

/-- Result of `m._get_state(wait=True)`: it raised, returned `None`
(exploration exhausted), or returned the state with id `sid`. -/
inductive AcquireResult where
  | raised (err : String)
  | noState
  | got (sid : Nat)
deriving DecidableEq, Repr

/-- How the drive phase `while not m._killed.value: current_state.execute()`
ended: the kill flag was observed (normal `while`/`else` exit), or
`execute()` raised `Concretize` (fork signal), `TerminateState` (with a
reason), or any other exception (unrecoverable failure). -/
inductive DriveOutcome where
  | killObserved
  | concretize
  | terminateState (reason : String)
  | failure (err : String)
deriving DecidableEq, Repr

/-- Environment of one loop iteration: the kill flag at the loop-top check
and the behavior of every external call the iteration can make.  An
`Except.error` means that call raised. -/
structure Env where
  killFlagSet : Bool
  acquire : AcquireResult
  drive : DriveOutcome
  fChildren : List Nat
  fFork : Except String (Option Nat)
  kSave : Except String Unit
  kRevive : Except String Unit
  tSave : Except String Unit
  tTerminate : Except String Unit
  xSave : Except String Unit
  xKill : Except String Unit
deriving Repr

/-- How an iteration leaves the outer `while`: fall through to the next
condition check, `break`, or an exception escaping the outer handler. -/
inductive LoopControl where
  | continueLoop
  | breakLoop
  | raisedOut (err : String)
deriving DecidableEq, Repr

/-- Result of one iteration of the outer `while` body: the value of
`current_state` afterwards, the registry, the actions performed, and how
the loop continues. -/
structure IterResult where
  cs : Option Nat
  reg : Registry
  acts : List WorkerAction
  ctl : LoopControl
deriving DecidableEq, Repr

/-- The `assert current_state.id in m._busy_states and current_state.id not
in m._ready_states` check performed right after acquisition. -/
def acquireAssert (r : Registry) (sid : Nat) : Bool :=
  decide (sid ∈ r.busy) && decide (sid ∉ r.ready)

/-- The outer `except (Exception, AssertionError)` handler: if a state is
held, publish will_kill_state, save it under its id, kill it, publish
did_kill_state, then `break`; with no state held, just `break`.  `acc` is
the list of actions the iteration already performed. -/
def outerExceptHandler (cs : Option Nat) (r : Registry) (e : Env)
    (err : String) (acc : List WorkerAction) : IterResult :=
  match cs with
  | none => ⟨none, r, acc, .breakLoop⟩
  | some sid =>
    let acc1 := acc ++ [WorkerAction.publish (.will_kill_state sid err)]
    match e.xSave with
    | .error err2 => ⟨some sid, r, acc1, .raisedOut err2⟩
    | .ok _ =>
      let acc2 := acc1 ++ [WorkerAction.save sid]
      match e.xKill with
      | .error err2 => ⟨some sid, r, acc2, .raisedOut err2⟩
      | .ok _ =>
        ⟨none, r.killStateEffect sid,
          acc2 ++ [WorkerAction.killState sid, WorkerAction.publish (.did_kill_state sid err)],
          .breakLoop⟩

/-- One iteration of the outer `while not m._killed.value` body of
`Worker.run` (the two nested `try` blocks), transcribed from the source.
`cs0` is `current_state` on entry (always `none` on reachable iterations). -/
def runIteration (cs0 : Option Nat) (r : Registry) (e : Env) : IterResult :=
  match e.acquire with
  | .raised err => outerExceptHandler cs0 r e err [WorkerAction.getStateCall]
  | .noState => ⟨none, r, [WorkerAction.getStateCall], .breakLoop⟩
  | .got sid =>
    let r1 := r.getStateEffect sid
    let acc0 := [WorkerAction.getStateCall]
    if acquireAssert r1 sid then
      match e.drive with
      | .killObserved =>
        match e.kSave with
        | .error err => outerExceptHandler (some sid) r1 e err acc0
        | .ok _ =>
          let acc1 := acc0 ++ [WorkerAction.save sid]
          match e.kRevive with
          | .error err => outerExceptHandler (some sid) r1 e err acc1
          | .ok _ =>
            ⟨none, r1.reviveEffect sid, acc1 ++ [WorkerAction.revive sid], .continueLoop⟩
      | .concretize =>
        match e.fFork with
        | .error err => outerExceptHandler (some sid) r1 e err acc0
        | .ok _ret =>
          ⟨none, r1.forkEffect sid e.fChildren, acc0 ++ [WorkerAction.callFork sid],
            .continueLoop⟩
      | .terminateState reason =>
        let acc1 := acc0 ++ [WorkerAction.publish (.will_terminate_state sid reason),
                             WorkerAction.setTerminatedBy sid reason]
        match e.tSave with
        | .error err => outerExceptHandler (some sid) r1 e err acc1
        | .ok _ =>
          let acc2 := acc1 ++ [WorkerAction.save sid]
          match e.tTerminate with
          | .error err => outerExceptHandler (some sid) r1 e err acc2
          | .ok _ =>
            ⟨none, r1.terminateStateEffect sid,
              acc2 ++ [WorkerAction.terminateState sid,
                       WorkerAction.publish (.did_terminate_state sid reason)],
              .continueLoop⟩
      | .failure err => outerExceptHandler (some sid) r1 e err acc0
    else
      outerExceptHandler (some sid) r1 e "AssertionError" acc0

/-- The outer `while not m._killed.value` loop of `Worker.run`, driven by
one `Env` per potential iteration.  Returns the registry, the actions, and
`some err` when an exception escaped the outer handler. -/
def runLoop : Option Nat → Registry → List Env → Registry × List WorkerAction × Option String
  | _, r, [] => (r, [], none)
  | cs, r, e :: rest =>
    if e.killFlagSet then (r, [], none)
    else
      let res := runIteration cs r e
      match res.ctl with
      | .continueLoop =>
        let (r2, acts2, exc) := runLoop res.cs res.reg rest
        (r2, res.acts ++ acts2, exc)
      | .breakLoop => (res.reg, res.acts, none)
      | .raisedOut err => (res.reg, res.acts, some err)

namespace Worker

/-- `Worker.run`: publishes will_start_worker, runs the main loop, and —
unless an exception escaped the outer handler — publishes
did_terminate_worker on the way out. -/
def run (wid : Nat) (r : Registry) (envs : List Env) : Registry × List WorkerAction :=
  let (r2, acts, exc) := runLoop none r envs
  match exc with
  | none =>
    (r2, WorkerAction.publish (.will_start_worker wid) ::
      (acts ++ [WorkerAction.publish (.did_terminate_worker wid)]))
  | some _ => (r2, WorkerAction.publish (.will_start_worker wid) :: acts)

end Worker

/-!
Log capture (`LogCaptureWorker.log_callback` / `LogCaptureWorker.dump_logs`).

`m._log_queue` is a bounded FIFO queue created by the Coordinator; we model
it as a capacity plus the list of queued records, oldest first.  `q.full()`
is the standard-library check `0 < maxsize ≤ qsize`, `q.get()` removes the
oldest record, `q.put(msg)` appends.  `dump_logs` serializes the drained
records with protobuf; serialization is out of scope, so the model returns
the drained records themselves alongside the remaining queue.
-/

/-- The shared log queue `m._log_queue`: a bounded FIFO, oldest record
first. -/
structure LogQueue where
  cap : Nat
  items : List String
deriving DecidableEq, Repr

/-- Python `q.full()`: true when the queue has a positive maxsize and holds
at least that many records. -/
def LogQueue.full (q : LogQueue) : Bool :=
  decide (0 < q.cap) && decide (q.cap ≤ q.items.length)

/-- `LogCaptureWorker.log_callback`: `if q.full(): q.get()` then
`q.put(msg)` — evict the oldest record when full, then append the new
one. -/
def log_callback (q : LogQueue) (msg : String) : LogQueue :=
  let q1 := if q.full then { q with items := q.items.tail } else q
  { q1 with items := q1.items ++ [msg] }

/-- The drain loop of `dump_logs`: `while i < 50 and not q.empty():
q.get()`, with `n` the number of iterations still allowed.  Returns the
drained records (oldest first) and the remaining queue contents. -/
def drainLogs : Nat → List String → List String × List String
  | 0, xs => ([], xs)
  | _ + 1, [] => ([], [])
  | n + 1, x :: xs =>
    let (taken, rest) := drainLogs n xs
    (x :: taken, rest)

/-- `LogCaptureWorker.dump_logs`: drain up to 50 records from the queue,
oldest first. -/
def dump_logs (q : LogQueue) : List String × LogQueue :=
  let (taken, rest) := drainLogs 50 q.items
  (taken, { q with items := rest })

/-!
State snapshot rendering (`render_state_descriptors` and
`StateMonitorWorker.dump_states`).

`StateDescriptor`, `StateStatus` and `StateLists` come from
`manticore.core.plugin` / `manticore.utils.enums`; we model the fields the
renderer reads.  Timestamps are modelled at millisecond granularity (an
`Int` count of milliseconds), so Python's
`int((now - t).total_seconds() * 1000)` is exactly `now - t`;
`st.field_updated_at.get("state_list", now)` is modelled as an `Option`
holding the time of the last `state_list` change.
-/

/-- Lifecycle status of a descriptor (`manticore.utils.enums.StateStatus`). -/
inductive StateStatus where
  | waiting_for_worker
  | running
  | stopped
  | destroyed
deriving DecidableEq, Repr

/-- Registry list a descriptor currently belongs to
(`manticore.utils.enums.StateLists`). -/
inductive StateLists where
  | ready
  | busy
  | terminated
  | killed
deriving DecidableEq, Repr

/-- Wire enum `State.READY | BUSY | TERMINATED | KILLED` of the snapshot
protocol. -/
inductive WireStateType where
  | READY
  | BUSY
  | TERMINATED
  | KILLED
deriving DecidableEq, Repr

/-- The fields of a `StateDescriptor` read by `render_state_descriptors`.
`state_list_updated_at` is the `"state_list"` entry of the descriptor's
`field_updated_at` map: the time (ms) of the last list-membership change,
if one was ever recorded. -/
structure StateDescriptor where
  state_id : Nat
  status : StateStatus
  state_list : StateLists
  termination_msg : String
  own_execs : Nat
  state_list_updated_at : Option Int
deriving DecidableEq, Repr

/-- One wire record of the snapshot response (`State` message). -/
structure WireState where
  id : Nat
  type : WireStateType
  reason : String
  num_executing : Nat
  wait_time : Int
deriving DecidableEq, Repr

/-- The literal dict `{StateLists.ready: State.READY, ...}[st.state_list]`
used by the renderer. -/
def stateListToWireType : StateLists → WireStateType
  | .ready => .READY
  | .busy => .BUSY
  | .terminated => .TERMINATED
  | .killed => .KILLED

/-- `render_state_descriptors`: keep every descriptor whose status is not
`destroyed` and build its wire record; `now` is `datetime.now()` in ms.
The input list is `desc.values()` in iteration order. -/
def render_state_descriptors (now : Int) : List StateDescriptor → List WireState
  | [] => []
  | st :: rest =>
    if st.status ≠ StateStatus.destroyed then
      { id := st.state_id
        type := stateListToWireType st.state_list
        reason := st.termination_msg
        num_executing := st.own_execs
        wait_time := now - (st.state_list_updated_at.getD now) } ::
        render_state_descriptors now rest
    else
      render_state_descriptors now rest

/-- Wire record as the spec describes it: "numeric id, one of
READY/BUSY/TERMINATED/KILLED, termination reason text, execution counter,
milliseconds since last list-membership change" (0 when no change was ever
recorded). -/
def specWireRecord (now : Int) (st : StateDescriptor) : WireState :=
  { id := st.state_id
    type := stateListToWireType st.state_list
    reason := st.termination_msg
    num_executing := st.own_execs
    wait_time :=
      match st.state_list_updated_at with
      | some t => now - t
      | none => 0 }

/-!
TCP server bindings (`HOST, PORT`, `ReusableTCPServer`,
`LogCaptureWorker.run`, `StateMonitorWorker.run`).
-/

/-- `HOST, PORT = "localhost", 3214`. -/
def HOST : String := "localhost"

/-- `HOST, PORT = "localhost", 3214`. -/
def PORT : Nat := 3214

/-- `ReusableTCPServer`: `allow_reuse_address = True`. -/
def ReusableTCPServer_allow_reuse_address : Bool := true

/-- The address and reuse setting a TCP listener is created with. -/
structure ServerBinding where
  host : String
  port : Nat
  reuse : Bool
deriving DecidableEq, Repr

/-- `LogCaptureWorker.run` binds `ReusableTCPServer((HOST, PORT),
LogTCPHandler)`. -/
def logServerBinding : ServerBinding :=
  { host := HOST, port := PORT, reuse := ReusableTCPServer_allow_reuse_address }

/-- `StateMonitorWorker.run` binds `ReusableTCPServer((HOST, PORT + 1),
MonitorTCPHandler)`. -/
def stateMonitorBinding : ServerBinding :=
  { host := HOST, port := PORT + 1, reuse := ReusableTCPServer_allow_reuse_address }

/-!
Helper lemmas shared by the claim proofs.
-/

/-- With duplicate-free ready ids, an acquired id passes the post-acquisition
assertion: it is in `busy` and no longer in `ready`. -/
theorem acquireAssert_after_getState (r : Registry) (sid : Nat)
    (hnd : r.ready.Nodup) :
    acquireAssert (r.getStateEffect sid) sid = true := by
  simp [acquireAssert, Registry.getStateEffect, hnd.not_mem_erase]

/-- Appending a fresh id to `busy` and erasing it again is the identity. -/
theorem erase_append_self (l : List Nat) (sid : Nat) (h : sid ∉ l) :
    (l ++ [sid]).erase sid = l := by
  rw [List.erase_append_right _ h]; simp

/-- Once every remaining iteration sees the kill flag set, the outer
`while` exits immediately. -/
theorem runLoop_all_killed (cs : Option Nat) (r : Registry) (envs : List Env)
    (h : ∀ e ∈ envs, e.killFlagSet = true) :
    runLoop cs r envs = (r, [], none) := by
  cases envs with
  | nil => rfl
  | cons e rest => simp [runLoop, h e (List.mem_cons_self e rest)]

/-- The drain loop takes the `n` oldest records and leaves the rest. -/
theorem drainLogs_eq (n : Nat) (xs : List String) :
    drainLogs n xs = (xs.take n, xs.drop n) := by
  induction n generalizing xs with
  | zero => simp [drainLogs]
  | succ n ih =>
    cases xs with
    | nil => simp [drainLogs]
    | cons x xs => simp [drainLogs, ih]

/-!
Claim theorems.
-/

/-- C2: for every unrecoverable failure raised while a unit holds a current
state, the unit publishes will_kill_state, saves the state under its
existing id, moves that id to the killed list, publishes did_kill_state —
in that order — and then exits its run-loop entirely, publishing
did_terminate_worker, rather than looping back to Acquire (the remaining
iterations `rest` are never run). -/
theorem unrecoverable_failure_kills_and_retires
    (wid sid : Nat) (err : String) (r : Registry) (e : Env) (rest : List Env)
    (hflag : e.killFlagSet = false)
    (hacq : e.acquire = .got sid)
    (hdrive : e.drive = .failure err)
    (hxs : e.xSave = .ok ()) (hxk : e.xKill = .ok ())
    (hnd : r.ready.Nodup) (hbusy : sid ∉ r.busy) :
    Worker.run wid r (e :: rest) =
      ({ ready := r.ready.erase sid, busy := r.busy,
         terminated := r.terminated, killed := r.killed ++ [sid] },
       [WorkerAction.publish (.will_start_worker wid),
        WorkerAction.getStateCall,
        WorkerAction.publish (.will_kill_state sid err),
        WorkerAction.save sid,
        WorkerAction.killState sid,
        WorkerAction.publish (.did_kill_state sid err),
        WorkerAction.publish (.did_terminate_worker wid)]) := by
  obtain ⟨flag, acq, drv, fc, ff, ks, kr, ts, tt, xs, xk⟩ := e
  simp only at hflag hacq hdrive hxs hxk
  subst hflag hacq hdrive hxs hxk
  simp only [Worker.run, runLoop, runIteration,
    acquireAssert_after_getState r sid hnd, if_true, outerExceptHandler]
  simp [Registry.getStateEffect, Registry.killStateEffect,
    erase_append_self r.busy sid hbusy]

/-- C2 witness: a concrete failing drive on a one-state registry. -/
theorem unrecoverable_failure_kills_and_retires_witness :
    Worker.run 0 ⟨[5], [], [], []⟩
      [⟨false, .got 5, .failure "boom", [], .ok none, .ok (), .ok (), .ok (),
        .ok (), .ok (), .ok ()⟩] =
      (⟨[], [], [], [5]⟩,
       [WorkerAction.publish (.will_start_worker 0),
        WorkerAction.getStateCall,
        WorkerAction.publish (.will_kill_state 5 "boom"),
        WorkerAction.save 5,
        WorkerAction.killState 5,
        WorkerAction.publish (.did_kill_state 5 "boom"),
        WorkerAction.publish (.did_terminate_worker 0)]) :=
  unrecoverable_failure_kills_and_retires 0 5 "boom" ⟨[5], [], [], []⟩ _ []
    rfl rfl rfl rfl rfl (by decide) (by decide)

/-- C4: when the kill flag is observed mid-drive, the unit saves the state
under its unchanged id, then revives it (back from busy to ready), and
exits its run-loop without acquiring another state: the trace shows save
then revive, no further getState call, and the id ends up in ready. -/
theorem kill_flag_checkpoint_revive_exit
    (wid sid : Nat) (r : Registry) (e : Env) (rest : List Env)
    (hflag : e.killFlagSet = false)
    (hacq : e.acquire = .got sid)
    (hdrive : e.drive = .killObserved)
    (hks : e.kSave = .ok ()) (hkr : e.kRevive = .ok ())
    (hrest : ∀ e2 ∈ rest, e2.killFlagSet = true)
    (hnd : r.ready.Nodup) (hbusy : sid ∉ r.busy) :
    Worker.run wid r (e :: rest) =
      ({ ready := r.ready.erase sid ++ [sid], busy := r.busy,
         terminated := r.terminated, killed := r.killed },
       [WorkerAction.publish (.will_start_worker wid),
        WorkerAction.getStateCall,
        WorkerAction.save sid,
        WorkerAction.revive sid,
        WorkerAction.publish (.did_terminate_worker wid)]) ∧
    sid ∈ (Worker.run wid r (e :: rest)).1.ready := by
  obtain ⟨flag, acq, drv, fc, ff, ks, kr, ts, tt, xs, xk⟩ := e
  simp only at hflag hacq hdrive hks hkr
  subst hflag hacq hdrive hks hkr
  have hloop := runLoop_all_killed none ((r.getStateEffect sid).reviveEffect sid) rest hrest
  constructor
  · simp only [Worker.run, runLoop, runIteration,
      acquireAssert_after_getState r sid hnd, if_true, hloop]
    simp [Registry.getStateEffect, Registry.reviveEffect,
      erase_append_self r.busy sid hbusy]
  · simp only [Worker.run, runLoop, runIteration,
      acquireAssert_after_getState r sid hnd, if_true, hloop]
    simp [Registry.getStateEffect, Registry.reviveEffect]

/-- C4 witness: kill flag observed on a one-state registry; the state is
checkpointed and back in ready, the unit exits. -/
theorem kill_flag_checkpoint_revive_exit_witness :
    Worker.run 0 ⟨[5], [], [], []⟩
      [⟨false, .got 5, .killObserved, [], .ok none, .ok (), .ok (), .ok (),
        .ok (), .ok (), .ok ()⟩] =
      (⟨[5], [], [], []⟩,
       [WorkerAction.publish (.will_start_worker 0),
        WorkerAction.getStateCall,
        WorkerAction.save 5,
        WorkerAction.revive 5,
        WorkerAction.publish (.did_terminate_worker 0)]) ∧
    5 ∈ (Worker.run 0 ⟨[5], [], [], []⟩
      [⟨false, .got 5, .killObserved, [], .ok none, .ok (), .ok (), .ok (),
        .ok (), .ok (), .ok ()⟩]).1.ready :=
  kill_flag_checkpoint_revive_exit 0 5 ⟨[5], [], [], []⟩ _ []
    rfl rfl rfl rfl rfl (by simp) (by decide) (by decide)

/-- C5: for every terminate signal with a reason, the unit publishes
will_terminate_state, records the reason on the state, saves it under its
existing id, moves the id into the terminated list, publishes
did_terminate_state — in that order — then releases the state
(`current_state = None`) and continues the loop back to Acquire rather
than retiring. -/
theorem terminate_signal_protocol
    (sid : Nat) (reason : String) (r : Registry) (e : Env)
    (hacq : e.acquire = .got sid)
    (hdrive : e.drive = .terminateState reason)
    (hts : e.tSave = .ok ()) (htt : e.tTerminate = .ok ())
    (hnd : r.ready.Nodup) (hbusy : sid ∉ r.busy) :
    runIteration none r e =
      ⟨none,
       { ready := r.ready.erase sid, busy := r.busy,
         terminated := r.terminated ++ [sid], killed := r.killed },
       [WorkerAction.getStateCall,
        WorkerAction.publish (.will_terminate_state sid reason),
        WorkerAction.setTerminatedBy sid reason,
        WorkerAction.save sid,
        WorkerAction.terminateState sid,
        WorkerAction.publish (.did_terminate_state sid reason)],
       .continueLoop⟩ := by
  obtain ⟨flag, acq, drv, fc, ff, ks, kr, ts, tt, xs, xk⟩ := e
  simp only at hacq hdrive hts htt
  subst hacq hdrive hts htt
  simp only [runIteration, acquireAssert_after_getState r sid hnd, if_true]
  simp [Registry.getStateEffect, Registry.terminateStateEffect,
    erase_append_self r.busy sid hbusy]

/-- C5 witness: a concrete terminate signal on a one-state registry. -/
theorem terminate_signal_protocol_witness :
    runIteration none ⟨[5], [], [], []⟩
      ⟨false, .got 5, .terminateState "done", [], .ok none, .ok (), .ok (),
        .ok (), .ok (), .ok (), .ok ()⟩ =
      ⟨none, ⟨[], [], [5], []⟩,
       [WorkerAction.getStateCall,
        WorkerAction.publish (.will_terminate_state 5 "done"),
        WorkerAction.setTerminatedBy 5 "done",
        WorkerAction.save 5,
        WorkerAction.terminateState 5,
        WorkerAction.publish (.did_terminate_state 5 "done")],
       .continueLoop⟩ :=
  terminate_signal_protocol 5 "done" ⟨[5], [], [], []⟩ _
    rfl rfl rfl rfl (by decide) (by decide)

/-- C1 fails on the code: at a fork where `_fork` returns the successor id
7 (the keep-going optimization), `Worker.run` does not continue with 7 as
its current state — the return value is discarded (`m._fork(...)` then
`current_state = None`) and the unit falls through to the next Acquire. -/
theorem fork_keep_going_counterexample :
    (runIteration none ⟨[5], [], [], []⟩
      ⟨false, .got 5, .concretize, [], .ok (some 7), .ok (), .ok (), .ok (),
        .ok (), .ok (), .ok ()⟩).cs ≠ some 7 ∧
    (runIteration none ⟨[5], [], [], []⟩
      ⟨false, .got 5, .concretize, [], .ok (some 7), .ok (), .ok (), .ok (),
        .ok (), .ok (), .ok ()⟩).cs = none ∧
    (runIteration none ⟨[5], [], [], []⟩
      ⟨false, .got 5, .concretize, [], .ok (some 7), .ok (), .ok (), .ok (),
        .ok (), .ok (), .ok ()⟩).ctl = LoopControl.continueLoop := by
  decide

/-- C1 (amended): when a fork signal is raised, the unit calls the
Coordinator's fork and then unconditionally releases its current state and
returns to Acquire; fork's return value is discarded, so even when fork
returns a successor id the unit does not adopt it as its current state. -/
theorem fork_discards_keep_going_result
    (sid : Nat) (ret : Option Nat) (r : Registry) (e : Env)
    (hacq : e.acquire = .got sid)
    (hdrive : e.drive = .concretize)
    (hf : e.fFork = .ok ret)
    (hnd : r.ready.Nodup) :
    runIteration none r e =
      ⟨none, (r.getStateEffect sid).forkEffect sid e.fChildren,
       [WorkerAction.getStateCall, WorkerAction.callFork sid],
       .continueLoop⟩ := by
  obtain ⟨flag, acq, drv, fc, ff, ks, kr, ts, tt, xs, xk⟩ := e
  simp only at hacq hdrive hf
  subst hacq hdrive hf
  simp only [runIteration, acquireAssert_after_getState r sid hnd, if_true]
  simp

/-- C1 (amended) witness: a fork returning successor id 7 still leaves the
unit with no current state, looping back to Acquire. -/
theorem fork_discards_keep_going_result_witness :
    runIteration none ⟨[5], [], [], []⟩
      ⟨false, .got 5, .concretize, [9], .ok (some 7), .ok (), .ok (), .ok (),
        .ok (), .ok (), .ok ()⟩ =
      ⟨none, ⟨[9], [], [], []⟩,
       [WorkerAction.getStateCall, WorkerAction.callFork 5],
       .continueLoop⟩ :=
  fork_discards_keep_going_result 5 (some 7) ⟨[5], [], [], []⟩ _
    rfl rfl rfl (by decide)

/-- C10: when an unrecoverable failure is caught while no current state is
held (here: `m._get_state` itself raised), the unit changes no registry
list, performs no save or killState call, publishes no
will_kill_state/did_kill_state, and still exits its run-loop publishing
did_terminate_worker. -/
theorem failure_without_state_no_registry_change
    (wid : Nat) (err : String) (r : Registry) (d : DriveOutcome)
    (fc : List Nat) (ff : Except String (Option Nat))
    (ks kr ts tt xs xk : Except String Unit) (rest : List Env) :
    Worker.run wid r
      (⟨false, .raised err, d, fc, ff, ks, kr, ts, tt, xs, xk⟩ :: rest) =
      (r, [WorkerAction.publish (.will_start_worker wid),
           WorkerAction.getStateCall,
           WorkerAction.publish (.did_terminate_worker wid)]) := by
  simp [Worker.run, runLoop, runIteration, outerExceptHandler]

/-- C3: every exception raised inside the fork- or terminate-signal
handling code itself (the Coordinator's fork raising, or the save or
terminateState call of the terminate handler raising) is caught by the
outer guard and treated exactly like an unrecoverable failure: the
still-held current state is saved and moved to killed (the
will_kill_state/save/killState/did_kill_state sequence ends the
iteration's trace) and the unit breaks out of its loop. -/
theorem handler_failure_outer_guard
    (sid : Nat) (err : String) (r : Registry) (e : Env)
    (hacq : e.acquire = .got sid)
    (hxs : e.xSave = .ok ()) (hxk : e.xKill = .ok ())
    (hnd : r.ready.Nodup)
    (hfail : (e.drive = .concretize ∧ e.fFork = .error err) ∨
      (∃ reason, e.drive = .terminateState reason ∧ e.tSave = .error err) ∨
      (∃ reason, e.drive = .terminateState reason ∧ e.tSave = .ok () ∧
        e.tTerminate = .error err)) :
    (runIteration none r e).ctl = .breakLoop ∧
    (runIteration none r e).cs = none ∧
    sid ∈ (runIteration none r e).reg.killed ∧
    [WorkerAction.publish (.will_kill_state sid err), WorkerAction.save sid,
     WorkerAction.killState sid,
     WorkerAction.publish (.did_kill_state sid err)] <:+
      (runIteration none r e).acts := by
  obtain ⟨flag, acq, drv, fc, ff, ks, kr, ts, tt, xs, xk⟩ := e
  simp only at hacq hxs hxk hfail
  subst hacq hxs hxk
  rcases hfail with ⟨hd, hf⟩ | ⟨reason, hd, hf⟩ | ⟨reason, hd, hf1, hf2⟩
  · subst hd hf
    simp only [runIteration, acquireAssert_after_getState r sid hnd, if_true,
      outerExceptHandler]
    refine ⟨by simp, by simp, by simp [Registry.killStateEffect], ?_⟩
    exact ⟨[WorkerAction.getStateCall], by simp⟩
  · subst hd hf
    simp only [runIteration, acquireAssert_after_getState r sid hnd, if_true,
      outerExceptHandler]
    refine ⟨by simp, by simp, by simp [Registry.killStateEffect], ?_⟩
    exact ⟨[WorkerAction.getStateCall,
      WorkerAction.publish (.will_terminate_state sid reason),
      WorkerAction.setTerminatedBy sid reason], by simp⟩
  · subst hd hf1 hf2
    simp only [runIteration, acquireAssert_after_getState r sid hnd, if_true,
      outerExceptHandler]
    refine ⟨by simp, by simp, by simp [Registry.killStateEffect], ?_⟩
    exact ⟨[WorkerAction.getStateCall,
      WorkerAction.publish (.will_terminate_state sid reason),
      WorkerAction.setTerminatedBy sid reason,
      WorkerAction.save sid], by simp⟩

/-- C3 witness: a concrete run where the Coordinator's fork itself raises. -/
theorem handler_failure_outer_guard_witness :
    (runIteration none ⟨[5], [], [], []⟩
      ⟨false, .got 5, .concretize, [], .error "efork", .ok (), .ok (), .ok (),
        .ok (), .ok (), .ok ()⟩).ctl = .breakLoop ∧
    (runIteration none ⟨[5], [], [], []⟩
      ⟨false, .got 5, .concretize, [], .error "efork", .ok (), .ok (), .ok (),
        .ok (), .ok (), .ok ()⟩).cs = none ∧
    5 ∈ (runIteration none ⟨[5], [], [], []⟩
      ⟨false, .got 5, .concretize, [], .error "efork", .ok (), .ok (), .ok (),
        .ok (), .ok (), .ok ()⟩).reg.killed ∧
    [WorkerAction.publish (.will_kill_state 5 "efork"), WorkerAction.save 5,
     WorkerAction.killState 5,
     WorkerAction.publish (.did_kill_state 5 "efork")] <:+
      (runIteration none ⟨[5], [], [], []⟩
        ⟨false, .got 5, .concretize, [], .error "efork", .ok (), .ok (),
          .ok (), .ok (), .ok (), .ok ()⟩).acts :=
  handler_failure_outer_guard 5 "efork" ⟨[5], [], [], []⟩ _
    rfl rfl rfl (by decide) (Or.inl ⟨rfl, rfl⟩)

/-- C6: the log buffer is a bounded FIFO with evict-oldest overwrite — a
push onto a full buffer first removes the oldest record (so the push never
blocks and the length stays at capacity) — and a log dump drains at most 50
records, the oldest ones first, leaving the rest in the buffer. -/
theorem log_buffer_bounded_fifo
    (q : LogQueue) (msg : String)
    (hfull : q.items.length = q.cap) (hpos : 0 < q.cap) :
    (log_callback q msg).items = q.items.tail ++ [msg] ∧
    (log_callback q msg).items.length = q.cap ∧
    ∀ p : LogQueue, (dump_logs p).1 = p.items.take 50 ∧
      (dump_logs p).1.length ≤ 50 ∧ (dump_logs p).2.items = p.items.drop 50 := by
  refine ⟨?_, ?_, ?_⟩
  · simp [log_callback, LogQueue.full, hfull, hpos]
  · simp [log_callback, LogQueue.full, hfull, hpos, List.length_tail]
    omega
  · intro p
    refine ⟨?_, ?_, ?_⟩
    · simp [dump_logs, drainLogs_eq]
    · simp [dump_logs, drainLogs_eq, List.length_take]
    · simp [dump_logs, drainLogs_eq]

/-- C6 witness: a full two-slot buffer evicts its oldest record on push,
and dumps return the oldest records first. -/
theorem log_buffer_bounded_fifo_witness :
    (["a", "b"] : List String).length = 2 ∧ 0 < 2 ∧
    ((log_callback ⟨2, ["a", "b"]⟩ "c").items = ["a", "b"].tail ++ ["c"] ∧
     (log_callback ⟨2, ["a", "b"]⟩ "c").items.length = 2 ∧
     ∀ p : LogQueue, (dump_logs p).1 = p.items.take 50 ∧
       (dump_logs p).1.length ≤ 50 ∧ (dump_logs p).2.items = p.items.drop 50) :=
  ⟨rfl, by decide, log_buffer_bounded_fifo ⟨2, ["a", "b"]⟩ "c" rfl (by decide)⟩

/-- C7: the state-snapshot response drops every descriptor whose status is
destroyed and maps each remaining descriptor to the wire record the spec
describes: numeric id, READY/BUSY/TERMINATED/KILLED membership, termination
reason text, execution counter, and whole milliseconds since the last
list-membership change (0 when none was recorded). -/
theorem snapshot_render_matches_spec (now : Int) (desc : List StateDescriptor) :
    render_state_descriptors now desc =
      (desc.filter fun st => decide (st.status ≠ StateStatus.destroyed)).map
        (specWireRecord now) := by
  induction desc with
  | nil => rfl
  | cons st rest ih =>
    by_cases h : st.status = StateStatus.destroyed
    · simp [render_state_descriptors, h, ih]
    · cases ht : st.state_list_updated_at <;>
        simp [render_state_descriptors, specWireRecord, h, ht, ih]

/-- C8: immediately after acquisition (getState meeting its contract of
moving the returned id from ready to busy, with duplicate-free ready ids),
the id is in busy and not in ready, so the run-loop's post-acquisition
assertion holds. -/
theorem acquired_state_busy_not_ready (r : Registry) (sid : Nat)
    (hnd : r.ready.Nodup) :
    sid ∈ (r.getStateEffect sid).busy ∧ sid ∉ (r.getStateEffect sid).ready ∧
    acquireAssert (r.getStateEffect sid) sid = true :=
  ⟨by simp [Registry.getStateEffect],
   by simp [Registry.getStateEffect, hnd.not_mem_erase],
   acquireAssert_after_getState r sid hnd⟩

/-- C8 witness: acquiring id 5 from a registry with ready = [5], busy = [7]. -/
theorem acquired_state_busy_not_ready_witness :
    ([5] : List Nat).Nodup ∧
    (5 ∈ ((⟨[5], [7], [], []⟩ : Registry).getStateEffect 5).busy ∧
     5 ∉ ((⟨[5], [7], [], []⟩ : Registry).getStateEffect 5).ready ∧
     acquireAssert ((⟨[5], [7], [], []⟩ : Registry).getStateEffect 5) 5 = true) :=
  ⟨by decide, acquired_state_busy_not_ready ⟨[5], [7], [], []⟩ 5 (by decide)⟩

/-- C9: the two introspection servers bind fixed adjacent TCP ports on the
loopback host "localhost" — the state-snapshot port is the log port plus
one — and both use `ReusableTCPServer`, whose `allow_reuse_address` is
true, permitting immediate address reuse across restarts. -/
theorem introspection_server_bindings :
    stateMonitorBinding.port = logServerBinding.port + 1 ∧
    logServerBinding.port = 3214 ∧
    logServerBinding.host = "localhost" ∧
    stateMonitorBinding.host = "localhost" ∧
    logServerBinding.reuse = true ∧ stateMonitorBinding.reuse = true :=
  ⟨rfl, rfl, rfl, rfl, rfl, rfl⟩
